import Mathlib

/-!
Shallow embedding of `src/backend/main.py` (SpinSync backend): the token
lifecycle manager (`get_access_token`, the `/callback` handler) and the
playlist-candidate aggregation algorithm (`create_playlist`), together with
theorems settling the specification claims about them.

Conventions of the embedding:
* A Flask session is a record of the three keys the core reads and writes
  (`access_token`, `refresh_token`, `expires_at`); a key that was popped or
  never set is `none`.
* Wall-clock timestamps and token lifetimes are natural numbers; the two
  `datetime.now().timestamp()` reads inside one handler invocation are
  modelled as a single `now` value.
* Each upstream HTTP response a handler may consume is passed in explicitly
  as data (status code plus the JSON fields the handler reads); the number of
  network calls a function makes is returned alongside its result.
* Python's `d['k']` on a missing key raises `KeyError`; fallible code is
  therefore embedded in `PyResult`, which separates a normal return value
  from an escaped `KeyError`.
-/

/-- Outcome of running a Python code path: a normal value, or an uncaught
`KeyError` on the named key. -/
inductive PyResult (α : Type) where
  | ok (a : α)
  | keyError (key : String)
deriving Repr, DecidableEq

/-- The per-user Flask session record: the three keys the token lifecycle
reads and writes. `none` models a key that is absent from the session. -/
structure Session where
  access_token : Option String
  refresh_token : Option String
  expires_at : Option Nat
deriving Repr, DecidableEq

/-- JSON body (plus HTTP status) of a response from the OAuth token endpoint,
restricted to the fields the handlers read: `access_token`, `refresh_token`,
`expires_in`. A field absent from the JSON object is `none`. -/
structure TokenResponse where
  status_code : Nat
  access_token : Option String
  refresh_token : Option String
  expires_in : Option Nat
deriving Repr, DecidableEq

/-- Embedding of `get_access_token` (main.py lines 24-52).

Arguments: `now` is `datetime.now().timestamp()`, `resp` is the response the
upstream token endpoint would return if the refresh POST is issued, `s` is
the session. Returns the Python return value (`session['access_token']` or
`None`, or an escaped `KeyError`), the mutated session, and the number of
network calls issued.

Source shape being mirrored:
* no `access_token` key → return `None` (no call);
* `now > session.get('expires_at', 0)` → stale:
  - no `refresh_token` key → pop `access_token`/`expires_at`, return `None`;
  - otherwise POST the refresh; status ≠ 200 → pop all three keys, return
    `None`; status 200 → `session['access_token'] = body['access_token']`
    (raises `KeyError` if the field is missing), then
    `session['expires_at'] = now + body.get('expires_in', 3600)`;
    the stored `refresh_token` is never written on this path;
* otherwise return the stored token with no call and no mutation. -/
def get_access_token (now : Nat) (resp : TokenResponse) (s : Session) :
    PyResult (Option String) × Session × Nat :=
  match s.access_token with
  | none => (.ok none, s, 0)
  | some _ =>
    if now > s.expires_at.getD 0 then
      match s.refresh_token with
      | none =>
        (.ok none, { s with access_token := none, expires_at := none }, 0)
      | some _ =>
        if resp.status_code ≠ 200 then
          (.ok none,
           { access_token := none, refresh_token := none, expires_at := none },
           1)
        else
          match resp.access_token with
          | none => (.keyError "access_token", s, 1)
          | some t =>
            (.ok (some t),
             { s with access_token := some t,
                      expires_at := some (now + resp.expires_in.getD 3600) },
             1)
    else
      (.ok s.access_token, s, 0)

/-- HTTP-level outcome of the `/callback` handler, as seen by the client. -/
inductive CallbackResult where
  | missingCode
  | exchangeFailed
  | redirectDashboard
deriving Repr, DecidableEq

/-- Embedding of the `/callback` handler (main.py lines 77-101).

`code` is `request.args.get('code')`; `resp` is the token endpoint's response
to the authorization-code exchange POST; `s` is the session before the
request. Mirrors the source exactly:
* missing `code` → 400 `missingCode`, no exchange;
* the response status code is never inspected; failure is detected solely by
  `'access_token' not in token_data` → 400 `exchangeFailed`, no session write;
* otherwise `session['access_token']` is assigned first; then
  `session['expires_at'] = now + token_data['expires_in']` indexes
  `expires_in` without a default, so a body lacking it raises `KeyError`
  after `access_token` was already written;
* `refresh_token` is stored only when the body supplies one. -/
def callback (now : Nat) (code : Option String) (resp : TokenResponse)
    (s : Session) : PyResult CallbackResult × Session :=
  match code with
  | none => (.ok .missingCode, s)
  | some _ =>
    match resp.access_token with
    | none => (.ok .exchangeFailed, s)
    | some t =>
      let s1 := { s with access_token := some t }
      match resp.expires_in with
      | none => (.keyError "expires_in", s1)
      | some e =>
        let s2 := { s1 with expires_at := some (now + e) }
        match resp.refresh_token with
        | none => (.ok .redirectDashboard, s2)
        | some r => (.ok .redirectDashboard, { s2 with refresh_token := some r })

/-- A track as the aggregation algorithm consumes it: identity is the opaque
`id`; `uri` is the only other field the playlist pipeline reads. -/
structure Track where
  id : String
  uri : String
deriving Repr, DecidableEq

/-- First-occurrence deduplication of a string list with an accumulator of
already-seen elements: the embedding of `list(dict.fromkeys(xs))`
(main.py line 191). -/
def dedupFirstGo (seen : List String) : List String → List String
  | [] => []
  | x :: xs =>
    if x ∈ seen then dedupFirstGo seen xs else x :: dedupFirstGo (x :: seen) xs

/-- First-occurrence deduplication, `list(dict.fromkeys(xs))`. -/
def dedupFirst (xs : List String) : List String := dedupFirstGo [] xs

/-- Loop body of the deduplicate-and-truncate pass (main.py lines 222-229):
walk the candidates, append a track whose `id` is not yet in `seen`, and
break as soon as `len(unique) >= 30` (the length test runs after every
iteration, duplicate or not). `count` carries `len(unique)` so far. -/
def dedup_go (seen : List String) (count : Nat) : List Track → List Track
  | [] => []
  | tr :: rest =>
    if tr.id ∈ seen then
      if 30 ≤ count then [] else dedup_go seen count rest
    else
      if 30 ≤ count + 1 then [tr]
      else tr :: dedup_go (tr.id :: seen) (count + 1) rest

/-- The deduplicate-and-truncate pass of `create_playlist` applied to the
candidate list: first 30 unique tracks by `id`, first-seen order. -/
def dedup_truncate (l : List Track) : List Track := dedup_go [] 0 l

/-- Candidate source selection (main.py lines 214-217): keep the
artist-expansion pool if nonempty; otherwise prefer top tracks; otherwise
fall back to recently played. -/
def pickSource (expansion top recent : List Track) : List Track :=
  if expansion = [] ∧ top ≠ [] then top
  else if expansion = [] ∧ recent ≠ [] then recent
  else expansion

/-- The upstream responses one `/playlist` request may consume, restricted to
the status codes and JSON fields the handler reads. `related` and
`artist_top` give, per artist id, the status and payload of the
related-artists and artist-top-tracks calls (the `market` query parameter of
the latter is fixed per request and not distinguished here). `recent_items`
models `recently-played` items, whose `track` key may be absent. `me_id` and
`me_country` are read with `.get`, hence optional. -/
structure Env where
  me_status : Nat
  me_id : Option String
  me_country : Option String
  top_artists_status : Nat
  top_artists_items : List String
  related : String → Nat × List String
  artist_top : String → Nat × List Track
  top_tracks_status : Nat
  top_tracks_items : List Track
  recent_status : Nat
  recent_items : List (Option Track)
  pl_status : Nat
  pl_id : Option String
  pl_url : Option String
  add_status : Nat

/-- Top-artist ids used by `/playlist` (main.py lines 181-183): the response
items on status 200, the empty list otherwise. -/
def top_artist_ids_of (env : Env) : List String :=
  if env.top_artists_status = 200 then env.top_artists_items else []

/-- Related-artist ids (main.py lines 185-191): per top artist, the first 2
related artists of every 200 response, concatenated, then deduplicated with
`list(dict.fromkeys(...))`. A non-200 related-artists response contributes
nothing. -/
def related_ids_of (env : Env) : List String :=
  dedupFirst ((top_artist_ids_of env).flatMap (fun aid =>
    if (env.related aid).1 = 200 then ((env.related aid).2).take 2 else []))

/-- Top tracks used by `/playlist` (main.py lines 193-194): items on 200,
else the empty list. -/
def top_tracks_of (env : Env) : List Track :=
  if env.top_tracks_status = 200 then env.top_tracks_items else []

/-- Recently played tracks (main.py lines 196-197): on 200, the `track` field
of every item that has one; else the empty list. -/
def recent_tracks_of (env : Env) : List Track :=
  if env.recent_status = 200 then env.recent_items.filterMap id else []

/-- The ids already seen among the user's own top/recent tracks
(main.py line 199); a membership structure, so a plain list suffices. -/
def seen_ids_of (env : Env) : List String :=
  (top_tracks_of env).map Track.id ++ (recent_tracks_of env).map Track.id

/-- Artist-expansion candidate pool (main.py lines 201-212): for each related
artist id, the tracks of a 200 top-tracks response whose id is not in
`seen_ids_of`; the seen set is fixed before the loop and never updated
inside it. -/
def expansion_of (env : Env) : List Track :=
  (related_ids_of env).flatMap (fun rid =>
    if (env.artist_top rid).1 = 200
    then ((env.artist_top rid).2).filter (fun tr => ¬ tr.id ∈ seen_ids_of env)
    else [])

/-- The candidate list `/playlist` deduplicates (main.py lines 201-217). -/
def candidates_of (env : Env) : List Track :=
  pickSource (expansion_of env) (top_tracks_of env) (recent_tracks_of env)

/-- One upstream HTTP call issued by the `/playlist` handler, in issue
order. `addTracks` records the URI batch sent. -/
inductive Call where
  | me
  | topArtists
  | relatedArtists (aid : String)
  | topTracks
  | recentlyPlayed
  | artistTopTracks (aid : String)
  | createPlaylist
  | addTracks (uris : List String)
deriving Repr, DecidableEq

/-- The candidate-gathering calls `/playlist` issues once the profile fetch
succeeded, in source order: top artists, one related-artists call per top
artist, top tracks, recently played, then one artist-top-tracks call per
deduplicated related artist. -/
def gather_calls_of (env : Env) : List Call :=
  [Call.me, Call.topArtists] ++ (top_artist_ids_of env).map Call.relatedArtists
    ++ [Call.topTracks, Call.recentlyPlayed]
    ++ (related_ids_of env).map Call.artistTopTracks

/-- HTTP-level outcome of the `/playlist` handler: 401, a propagated upstream
failure (status plus the handler's error message), 400 `noCandidates`, or the
success payload carrying the playlist url from the creation response. -/
inductive PlaylistResult where
  | unauthorized
  | upstreamError (status : Nat) (msg : String)
  | noCandidates
  | created (url : Option String)
deriving Repr, DecidableEq

/-- Embedding of the `/playlist` handler `create_playlist`
(main.py lines 163-258), returning the HTTP outcome and the trace of
upstream calls issued. Mirrors the source:
* bearer token is `session.get("access_token")` read directly — the handler
  never calls `get_access_token`; absence → 401 with no upstream call;
* profile fetch status ≠ 200 → its status propagates, nothing else is called;
* every candidate-gathering failure was already replaced by empty data inside
  `top_artist_ids_of`/`related_ids_of`/`top_tracks_of`/`recent_tracks_of`/
  `expansion_of`, never surfaced as an error;
* no candidates → 400; playlist creation status ≠ 201 → its status
  propagates and the add-tracks call is never issued; add status ≠ 201 → its
  status propagates; otherwise the creation response's url is returned. -/
def create_playlist (env : Env) (s : Session) : PlaylistResult × List Call :=
  match s.access_token with
  | none => (.unauthorized, [])
  | some _ =>
    if env.me_status ≠ 200 then
      (.upstreamError env.me_status "Failed to get user profile", [Call.me])
    else if candidates_of env = [] then
      (.noCandidates, gather_calls_of env)
    else if env.pl_status ≠ 201 then
      (.upstreamError env.pl_status "Failed to create playlist",
       gather_calls_of env ++ [Call.createPlaylist])
    else if env.add_status ≠ 201 then
      (.upstreamError env.add_status "Failed to add tracks",
       gather_calls_of env ++ [Call.createPlaylist,
         Call.addTracks ((dedup_truncate (candidates_of env)).map Track.uri)])
    else
      (.created env.pl_url,
       gather_calls_of env ++ [Call.createPlaylist,
         Call.addTracks ((dedup_truncate (candidates_of env)).map Track.uri)])

/-- Bearer token the `/history/top-tracks` handler sends upstream
(main.py lines 136-143): `session.get("access_token")`, read directly from
the session; `none` means the handler answers 401 without an upstream call. -/
def top_tracks_bearer (s : Session) : Option String := s.access_token

/-- Bearer token the `/history/recent-tracks` handler sends upstream
(main.py lines 262-267): `session.get("access_token")` read directly. -/
def recent_tracks_bearer (s : Session) : Option String := s.access_token

/-- Bearer token the `/playlist` handler sends upstream
(main.py lines 168-172): `session.get("access_token")` read directly. -/
def create_playlist_bearer (s : Session) : Option String := s.access_token

/-- Bearer token the `/me` handler sends upstream (main.py lines 126-131):
the return value of `get_access_token`, i.e. the refreshed token when the
stored one is stale and refreshable. -/
def me_bearer (now : Nat) (resp : TokenResponse) (s : Session) :
    PyResult (Option String) :=
  (get_access_token now resp s).1

/-! Concrete fixtures for counterexamples and witnesses. -/

/-- Test track with id "1". -/
def trackA : Track := ⟨"1", "uA"⟩

/-- Test track with id "2". -/
def trackB : Track := ⟨"2", "uB"⟩

/-- Test track with id "3". -/
def trackC : Track := ⟨"3", "uC"⟩

/-- Test track with id "4". -/
def trackD : Track := ⟨"4", "uD"⟩

/-- A session whose access token expired at time 10 and which still holds a
refresh token. -/
def staleSession : Session := ⟨some "stale", some "keep", some 10⟩

/-- An unauthenticated session: no keys set. -/
def emptySession : Session := ⟨none, none, none⟩

/-- A session holding a valid token until time 1000. -/
def freshSession : Session := ⟨some "tok", none, some 1000⟩

/-- A 200 refresh response that rotates the refresh token. -/
def refreshRotateResp : TokenResponse := ⟨200, some "fresh", some "rot", some 60⟩

/-- A 200 refresh response that carries no new refresh token. -/
def freshRefreshResp : TokenResponse := ⟨200, some "fresh", none, some 60⟩

/-- A 200 refresh response whose body lacks the `access_token` field. -/
def refreshMissingResp : TokenResponse := ⟨200, none, none, some 60⟩

/-- A non-2xx token-endpoint response whose body nevertheless carries an
`access_token`. -/
def non2xxExchangeResp : TokenResponse := ⟨500, some "tok", none, some 3600⟩

/-- Playlist environment for the prefer-top-tracks scenario: top tracks
`[A,B,C]`, recently played `[B,D]`, no top artists, everything else
succeeding. -/
def env5 : Env :=
  { me_status := 200, me_id := some "user", me_country := none,
    top_artists_status := 200, top_artists_items := [],
    related := fun _ => (404, []), artist_top := fun _ => (404, []),
    top_tracks_status := 200, top_tracks_items := [trackA, trackB, trackC],
    recent_status := 200, recent_items := [some trackB, some trackD],
    pl_status := 201, pl_id := some "pl", pl_url := some "u",
    add_status := 201 }

/-- Playlist environment whose top-tracks call fails with 500 while the
recently-played call succeeds; playlist creation and track addition
succeed. -/
def env6 : Env :=
  { me_status := 200, me_id := some "user", me_country := none,
    top_artists_status := 500, top_artists_items := [],
    related := fun _ => (404, []), artist_top := fun _ => (404, []),
    top_tracks_status := 500, top_tracks_items := [trackA],
    recent_status := 200, recent_items := [some trackD],
    pl_status := 201, pl_id := some "pl", pl_url := some "u",
    add_status := 201 }

/-- Playlist environment with healthy candidate gathering but a playlist
creation call answered 403. -/
def env9 : Env :=
  { me_status := 200, me_id := some "user", me_country := none,
    top_artists_status := 200, top_artists_items := [],
    related := fun _ => (404, []), artist_top := fun _ => (404, []),
    top_tracks_status := 200, top_tracks_items := [trackA, trackB],
    recent_status := 200, recent_items := [],
    pl_status := 403, pl_id := none, pl_url := none,
    add_status := 201 }

/-! Theorems about the token lifecycle. -/

/-- C7: for every session whose `expiresAt` lies in the future
(`now() <= expiresAt`), `getValidToken` makes zero network calls, returns the
stored access token unchanged, and leaves every session field unmodified. -/
theorem getValidToken_fresh_noop (now : Nat) (resp : TokenResponse)
    (s : Session) (h : now ≤ s.expires_at.getD 0) :
    get_access_token now resp s = (.ok s.access_token, s, 0) := by
  have hlt : ¬ now > s.expires_at.getD 0 := by omega
  cases hA : s.access_token with
  | none => simp [get_access_token, hA]
  | some a => simp [get_access_token, hA, hlt]

/-- Witness for `getValidToken_fresh_noop` at a concrete fresh session. -/
theorem getValidToken_fresh_noop_witness :
    get_access_token 5 freshRefreshResp freshSession
      = (.ok (some "tok"), freshSession, 0) :=
  getValidToken_fresh_noop 5 freshRefreshResp freshSession (by decide)

/-- Helper: full description of a successful refresh inside
`get_access_token` — stale token, refresh token present, 200 response whose
body carries `access_token`: the session's access token and expiry are
overwritten, its refresh token is untouched, and one network call is made. -/
theorem get_access_token_refresh_eq (now : Nat) (resp : TokenResponse)
    (s : Session) (a r t : String)
    (hA : s.access_token = some a) (hE : now > s.expires_at.getD 0)
    (hR : s.refresh_token = some r) (hS : resp.status_code = 200)
    (hT : resp.access_token = some t) :
    get_access_token now resp s =
      (.ok (some t),
       { access_token := some t, refresh_token := some r,
         expires_at := some (now + resp.expires_in.getD 3600) }, 1) := by
  simp [get_access_token, hA, hE, hR, hS, hT]

/-- C1 counterexample: a successful refresh whose response rotates the
refresh token (`refresh_token = "rot"`). The claim predicts the stored
refresh token is overwritten with `"rot"`; the code leaves the stored
`"keep"` in place. -/
theorem getValidToken_no_rotation_cex :
    (get_access_token 100 refreshRotateResp staleSession).2.1.refresh_token
        = some "keep"
      ∧ refreshRotateResp.refresh_token = some "rot"
      ∧ (some "keep" : Option String) ≠ some "rot" := by
  decide

/-- C1 amended: on a successful refresh, `getValidToken` overwrites
`accessToken`, recomputes `expiresAt = now + expiresIn` (default 3600 when
the issuer omits `expiresIn`), and always leaves the stored `refreshToken`
unchanged — even when the refresh response supplies a new one. -/
theorem getValidToken_refresh_success (now : Nat) (resp : TokenResponse)
    (s : Session) (a r t : String)
    (hA : s.access_token = some a) (hE : now > s.expires_at.getD 0)
    (hR : s.refresh_token = some r) (hS : resp.status_code = 200)
    (hT : resp.access_token = some t) :
    get_access_token now resp s =
      (.ok (some t),
       { access_token := some t, refresh_token := some r,
         expires_at := some (now + resp.expires_in.getD 3600) }, 1) :=
  get_access_token_refresh_eq now resp s a r t hA hE hR hS hT

/-- Witness for `getValidToken_refresh_success`: the stale session refreshed
at time 100 with a rotating 200 response keeps refresh token `"keep"`. -/
theorem getValidToken_refresh_success_witness :
    get_access_token 100 refreshRotateResp staleSession
      = (.ok (some "fresh"), ⟨some "fresh", some "keep", some 160⟩, 1) :=
  getValidToken_refresh_success 100 refreshRotateResp staleSession
    "stale" "keep" "fresh" rfl (by decide) rfl rfl rfl

/-- C2 counterexample: a 200 refresh response whose body lacks
`access_token`. The claim predicts the session is cleared and
`Unauthenticated` is returned; the code raises an uncaught `KeyError` and
leaves the session untouched. -/
theorem getValidToken_missing_field_cex :
    (get_access_token 100 refreshMissingResp staleSession).1
        = .keyError "access_token"
      ∧ (get_access_token 100 refreshMissingResp staleSession).2.1
        = staleSession := by
  decide

/-- C2 amended: on a refresh attempt for an expired session holding a
refresh token, a non-2xx response clears access token, expiry and refresh
token and returns `Unauthenticated`; but a 2xx response whose body lacks the
`accessToken` field raises an uncaught `KeyError` and leaves the session
unchanged — it is not converted to `Unauthenticated`. -/
theorem getValidToken_refresh_failure (now : Nat) (resp : TokenResponse)
    (s : Session) (a r : String)
    (hA : s.access_token = some a) (hE : now > s.expires_at.getD 0)
    (hR : s.refresh_token = some r) :
    (resp.status_code ≠ 200 →
        get_access_token now resp s = (.ok none, ⟨none, none, none⟩, 1))
      ∧ (resp.status_code = 200 → resp.access_token = none →
          get_access_token now resp s = (.keyError "access_token", s, 1)) := by
  constructor
  · intro hS
    simp [get_access_token, hA, hE, hR, hS]
  · intro hS hT
    simp [get_access_token, hA, hE, hR, hS, hT]

/-- Witness for `getValidToken_refresh_failure`: a 500 refresh response
clears the stale session. -/
theorem getValidToken_refresh_failure_witness :
    get_access_token 100 ⟨500, none, none, none⟩ staleSession
      = (.ok none, ⟨none, none, none⟩, 1) :=
  (getValidToken_refresh_failure 100 ⟨500, none, none, none⟩ staleSession
      "stale" "keep" rfl (by decide) rfl).1 (by decide)

/-- C10: in the authorization-code exchange, a body containing
`access_token` but omitting `expires_in` is indexed without a default, so
`callback` raises an uncaught `KeyError` after `access_token` has already
been written to the session and before `expires_at` is set: the session is
left partially written and no `ExchangeFailed` result is produced. -/
theorem callback_missing_expires_in (now : Nat) (code : Option String)
    (resp : TokenResponse) (s : Session) (c t : String)
    (hC : code = some c) (hT : resp.access_token = some t)
    (hE : resp.expires_in = none) :
    callback now code resp s
        = (.keyError "expires_in", { s with access_token := some t })
      ∧ (.keyError "expires_in" : PyResult CallbackResult)
        ≠ .ok .exchangeFailed
      ∧ { s with access_token := some t }.expires_at = s.expires_at := by
  refine ⟨?_, by simp, rfl⟩
  simp [callback, hC, hT, hE]

/-- Witness for `callback_missing_expires_in`: an exchange response carrying
only `access_token = "tok"` against the empty session writes
`access_token` and then raises. -/
theorem callback_missing_expires_in_witness :
    callback 7 (some "c") ⟨200, some "tok", none, none⟩ emptySession
      = (.keyError "expires_in", ⟨some "tok", none, none⟩) :=
  (callback_missing_expires_in 7 (some "c") ⟨200, some "tok", none, none⟩
      emptySession "c" "tok" rfl rfl rfl).1

/-- C3 counterexample: an exchange response with HTTP status 500 whose body
nevertheless carries `access_token`. The claim predicts `ExchangeFailed`
with no session write for every non-2xx response; the code never inspects
the status, writes the session and redirects to the dashboard. -/
theorem callback_ignores_status_cex :
    non2xxExchangeResp.status_code = 500
      ∧ (callback 0 (some "c") non2xxExchangeResp emptySession).1
        = .ok .redirectDashboard
      ∧ (callback 0 (some "c") non2xxExchangeResp emptySession).2.access_token
        = some "tok" := by
  decide

/-- C3 amended: the exchange detects failure solely by the response body
lacking `access_token` — the HTTP status is never consulted. When the body
lacks `access_token`, `callback` signals `ExchangeFailed` and writes no
session field; when the body carries both `access_token` and `expires_in`, a
full session is written (`accessToken`, `expiresAt = now + expiresIn`, and
`refreshToken` exactly when supplied), regardless of status. -/
theorem callback_body_determines_outcome (now : Nat) (code : Option String)
    (resp : TokenResponse) (s : Session) (c : String) (hC : code = some c) :
    (resp.access_token = none →
        callback now code resp s = (.ok .exchangeFailed, s))
      ∧ (∀ t e, resp.access_token = some t → resp.expires_in = some e →
          callback now code resp s =
            (.ok .redirectDashboard,
             { access_token := some t,
               refresh_token := (resp.refresh_token).or s.refresh_token,
               expires_at := some (now + e) })) := by
  constructor
  · intro hT
    simp [callback, hC, hT]
  · intro t e hT hE
    cases hR : resp.refresh_token with
    | none => simp [callback, hC, hT, hE, hR]
    | some r => simp [callback, hC, hT, hE, hR]

/-- Witness for `callback_body_determines_outcome`: a body without
`access_token` yields `ExchangeFailed` and leaves the session untouched. -/
theorem callback_body_determines_outcome_witness :
    callback 7 (some "c") ⟨400, none, none, none⟩ staleSession
      = (.ok .exchangeFailed, staleSession) :=
  (callback_body_determines_outcome 7 (some "c") ⟨400, none, none, none⟩
      staleSession "c" rfl).1 rfl

/-! Theorems about the playlist aggregation. -/

/-- Helper: the dedup-and-truncate loop emits a sublist of its input, so it
never reorders surviving tracks. -/
theorem dedup_go_sublist :
    ∀ (l : List Track) (seen : List String) (count : Nat),
      (dedup_go seen count l).Sublist l := by
  intro l
  induction l with
  | nil => intro seen count; simp [dedup_go]
  | cons tr rest ih =>
    intro seen count
    simp only [dedup_go]
    split_ifs with h1 h2 h3
    · exact List.nil_sublist _
    · exact (ih seen count).cons tr
    · exact (List.nil_sublist rest).cons₂ tr
    · exact (ih (tr.id :: seen) (count + 1)).cons₂ tr

/-- Helper: starting below the bound, the loop's output length plus the
running count never exceeds 30. -/
theorem dedup_go_length :
    ∀ (l : List Track) (seen : List String) (count : Nat), count < 30 →
      (dedup_go seen count l).length + count ≤ 30 := by
  intro l
  induction l with
  | nil => intro seen count h; simp [dedup_go]; omega
  | cons tr rest ih =>
    intro seen count h
    simp only [dedup_go]
    split_ifs with h1 h2 h3
    · omega
    · exact ih seen count h
    · simp; omega
    · have := ih (tr.id :: seen) (count + 1) (by omega)
      simp only [List.length_cons]
      omega

/-- Helper: every track the loop emits has an id outside the incoming seen
set. -/
theorem dedup_go_mem_not_seen :
    ∀ (l : List Track) (seen : List String) (count : Nat) (t : Track),
      t ∈ dedup_go seen count l → t.id ∉ seen := by
  intro l
  induction l with
  | nil => intro seen count t ht; simp [dedup_go] at ht
  | cons tr rest ih =>
    intro seen count t ht
    simp only [dedup_go] at ht
    split_ifs at ht with h1 h2 h3
    · simp at ht
    · exact ih seen count t ht
    · rw [List.mem_singleton] at ht
      subst ht; exact h1
    · rcases List.mem_cons.mp ht with rfl | hmem
      · exact h1
      · intro hs
        exact ih (tr.id :: seen) (count + 1) t hmem (List.mem_cons_of_mem _ hs)

/-- Helper: the ids of the loop's output are pairwise distinct — at most one
track per id survives. -/
theorem dedup_go_pairwise :
    ∀ (l : List Track) (seen : List String) (count : Nat),
      (dedup_go seen count l).Pairwise (fun a b => a.id ≠ b.id) := by
  intro l
  induction l with
  | nil => intro seen count; simp [dedup_go]
  | cons tr rest ih =>
    intro seen count
    simp only [dedup_go]
    split_ifs with h1 h2 h3
    · exact List.Pairwise.nil
    · exact ih seen count
    · simp
    · rw [List.pairwise_cons]
      refine ⟨fun b hb => ?_, ih (tr.id :: seen) (count + 1)⟩
      have := dedup_go_mem_not_seen rest (tr.id :: seen) (count + 1) b hb
      intro he
      exact this (by rw [← he]; exact List.mem_cons_self _ _)

/-- Helper: every surviving track is the first track of the input that
carries its id. -/
theorem dedup_go_find :
    ∀ (l : List Track) (seen : List String) (count : Nat) (t : Track),
      t ∈ dedup_go seen count l →
        List.find? (fun x => x.id == t.id) l = some t := by
  intro l
  induction l with
  | nil => intro seen count t ht; simp [dedup_go] at ht
  | cons tr rest ih =>
    intro seen count t ht
    simp only [dedup_go] at ht
    split_ifs at ht with h1 h2 h3
    · simp at ht
    · have hne : t.id ≠ tr.id := by
        intro he
        exact dedup_go_mem_not_seen rest seen count t ht (he ▸ h1)
      rw [List.find?_cons_of_neg _ (by simp [hne.symm])]
      exact ih seen count t ht
    · rw [List.mem_singleton] at ht
      subst ht
      rw [List.find?_cons_of_pos _ (by simp)]
    · rcases List.mem_cons.mp ht with rfl | hmem
      · rw [List.find?_cons_of_pos _ (by simp)]
      · have hns := dedup_go_mem_not_seen rest (tr.id :: seen) (count + 1) t hmem
        have hne : t.id ≠ tr.id := fun he => hns (by rw [he]; exact List.mem_cons_self _ _)
        rw [List.find?_cons_of_neg _ (by simp [hne.symm])]
        exact ih (tr.id :: seen) (count + 1) t hmem

/-- C8: the deduplicate-and-truncate pass produces at most 30 tracks, keeps
at most the first occurrence of each track id (ids are pairwise distinct and
every survivor is the first input track with its id), and never reorders
surviving tracks relative to their first-seen order (the output is a sublist
of the input). -/
theorem dedup_truncate_spec (l : List Track) :
    (dedup_truncate l).length ≤ 30
      ∧ (dedup_truncate l).Sublist l
      ∧ (dedup_truncate l).Pairwise (fun a b => a.id ≠ b.id)
      ∧ ∀ t ∈ dedup_truncate l,
          List.find? (fun x => x.id == t.id) l = some t := by
  refine ⟨?_, dedup_go_sublist l [] 0, dedup_go_pairwise l [] 0,
    fun t ht => dedup_go_find l [] 0 t ht⟩
  have := dedup_go_length l [] 0 (by omega)
  simp only [dedup_truncate]
  omega

/-- Witness for `dedup_truncate_spec` on the concrete input
`[A, B, A]`: the output is a sublist of the input, and `A` survives as the
first input track with id "1". -/
theorem dedup_truncate_spec_witness :
    (dedup_truncate [trackA, trackB, trackA]).Sublist [trackA, trackB, trackA]
      ∧ List.find? (fun x => x.id == trackA.id) [trackA, trackB, trackA]
        = some trackA :=
  ⟨(dedup_truncate_spec [trackA, trackB, trackA]).2.1,
   (dedup_truncate_spec [trackA, trackB, trackA]).2.2.2 trackA (by decide)⟩

/-- C5 counterexample: with top tracks `[A,B,C]` (ids 1,2,3), recently
played `[B,D]` (ids 2,4) and an empty artist-expansion pool, the
deduplicated candidate order is `[A,B,C]` — not `[A,B,C,D]` as the claim
states: recent tracks are not merged, so `D` never appears. -/
theorem candidates_not_merged_cex :
    dedup_truncate (candidates_of env5) = [trackA, trackB, trackC]
      ∧ ([trackA, trackB, trackC] : List Track)
        ≠ [trackA, trackB, trackC, trackD] := by
  decide

/-- C5 amended: when the candidate sources are top tracks `[A,B,C]` and
recently played `[B,D]` and the artist-expansion pool is empty,
`buildPlaylist` uses the top tracks alone: the deduplicated candidate order
is `[A,B,C]`, with recent tracks not merged. -/
theorem candidates_prefer_top_only :
    expansion_of env5 = []
      ∧ env5.top_tracks_items = [trackA, trackB, trackC]
      ∧ env5.recent_items = [some trackB, some trackD]
      ∧ dedup_truncate (candidates_of env5) = [trackA, trackB, trackC] := by
  decide

/-- C6 counterexample: in `env6` the top-tracks call fails with 500, yet
`create_playlist` does not surface an `UpstreamError`: it silently
substitutes the empty list, falls back to the recently-played tracks and
returns a created playlist. -/
theorem create_playlist_silent_fallback_cex :
    env6.top_tracks_status = 500
      ∧ (create_playlist env6 freshSession).1 = .created (some "u") := by
  decide

/-- C6 amended: the only `UpstreamError` results `buildPlaylist` can produce
come from the profile fetch, the playlist-creation call, or the add-tracks
call; a non-2xx response from any candidate-gathering call (top artists,
top tracks, recently played) is silently replaced by empty data, after which
the documented top-tracks→recent-tracks fallback may apply. -/
theorem create_playlist_error_sources (env : Env) (s : Session) :
    (∀ st msg calls, create_playlist env s = (.upstreamError st msg, calls) →
        (st = env.me_status ∧ msg = "Failed to get user profile")
        ∨ (st = env.pl_status ∧ msg = "Failed to create playlist")
        ∨ (st = env.add_status ∧ msg = "Failed to add tracks"))
      ∧ (env.top_artists_status ≠ 200 → top_artist_ids_of env = [])
      ∧ (env.top_tracks_status ≠ 200 → top_tracks_of env = [])
      ∧ (env.recent_status ≠ 200 → recent_tracks_of env = []) := by
  refine ⟨?_, fun h => by simp [top_artist_ids_of, h],
    fun h => by simp [top_tracks_of, h],
    fun h => by simp [recent_tracks_of, h]⟩
  intro st msg calls h
  obtain ⟨sa, sr, se⟩ := s
  cases sa with
  | none => simp [create_playlist] at h
  | some a =>
    simp only [create_playlist] at h
    split_ifs at h with h1 h2 h3 h4 <;> simp_all

/-- Witness for `create_playlist_error_sources`: the failed (500) top-tracks
call of `env6` contributes the empty list, not an error. -/
theorem create_playlist_error_sources_witness :
    top_tracks_of env6 = [] :=
  (create_playlist_error_sources env6 freshSession).2.2.1 (by decide)

/-- C9: when the profile fetch succeeded, candidates exist, and the
playlist-creation call returns 403, `buildPlaylist` returns
`UpstreamError 403` and the add-tracks call is never issued: the call trace
ends at `createPlaylist` and contains no `addTracks` call. -/
theorem create_playlist_403_aborts (env : Env) (s : Session) (tok : String)
    (hA : s.access_token = some tok) (hMe : env.me_status = 200)
    (hC : candidates_of env ≠ []) (hPl : env.pl_status = 403) :
    create_playlist env s =
      (.upstreamError 403 "Failed to create playlist",
       gather_calls_of env ++ [Call.createPlaylist])
      ∧ ∀ uris,
          Call.addTracks uris ∉ gather_calls_of env ++ [Call.createPlaylist] := by
  constructor
  · simp [create_playlist, hA, hMe, hC, hPl]
  · intro uris
    simp [gather_calls_of, List.mem_append, List.mem_map]

/-- Witness for `create_playlist_403_aborts` at `env9`, whose playlist
creation answers 403 while candidates `[A,B]` exist. -/
theorem create_playlist_403_aborts_witness :
    create_playlist env9 freshSession
      = (.upstreamError 403 "Failed to create playlist",
         gather_calls_of env9 ++ [Call.createPlaylist]) :=
  (create_playlist_403_aborts env9 freshSession "tok" rfl rfl (by decide) rfl).1

/-- C4 counterexample: for the stale-but-refreshable session, the
top-tracks handler sends the stale stored token upstream, while
`get_access_token` (as `/me` uses it) would have produced the freshly
refreshed token — so an upstream request is made with the stale token. -/
theorem handlers_stale_bearer_cex :
    top_tracks_bearer staleSession = some "stale"
      ∧ me_bearer 100 freshRefreshResp staleSession = .ok (some "fresh")
      ∧ top_tracks_bearer staleSession ≠ some "fresh" := by
  decide

/-- C4 amended: only the profile endpoint `/me` obtains its bearer token via
`getValidToken`; the top-tracks, recent-tracks and playlist handlers read
`access_token` directly from the session, so for a session whose access
token is expired but whose refresh token is valid they issue the upstream
request with the stale stored token, while `/me` uses the refreshed one. -/
theorem handlers_use_raw_session_token (now : Nat) (resp : TokenResponse)
    (s : Session) (a r t : String)
    (hA : s.access_token = some a) (hE : now > s.expires_at.getD 0)
    (hR : s.refresh_token = some r) (hS : resp.status_code = 200)
    (hT : resp.access_token = some t) :
    top_tracks_bearer s = some a
      ∧ recent_tracks_bearer s = some a
      ∧ create_playlist_bearer s = some a
      ∧ me_bearer now resp s = .ok (some t) := by
  refine ⟨hA, hA, hA, ?_⟩
  have h := get_access_token_refresh_eq now resp s a r t hA hE hR hS hT
  simp [me_bearer, h]

/-- Witness for `handlers_use_raw_session_token` at the stale session and a
rotating 200 refresh response. -/
theorem handlers_use_raw_session_token_witness :
    top_tracks_bearer staleSession = some "stale"
      ∧ me_bearer 100 refreshRotateResp staleSession = .ok (some "fresh") := by
  have h := handlers_use_raw_session_token 100 refreshRotateResp staleSession
    "stale" "keep" "fresh" rfl (by decide) rfl rfl rfl
  exact ⟨h.1, h.2.2.2⟩
